import Mathlib

/-!
Shallow embedding of `src/multi_fits_analyzer.py` (function
`analizador_multitemporal_picaser`), the core multi-temporal differential
detection pipeline of the Picaser Space Scanner repository, together with
proofs settling the specification claims about it.

Modelling conventions:
* Image data (numpy 2-D float arrays) is modelled as `List (List ℚ)` with
  exact rational arithmetic in place of IEEE-754 doubles.
* numpy element-wise subtraction of two 2-D arrays, including its
  broadcasting rules (a dimension of size 1 is stretched to match the other
  operand), is modelled by `bsub`; incompatible shapes yield `none`,
  matching the `ValueError` numpy raises, which the Python code catches in
  its `except Exception` block.
* `np.std` is the population standard deviation `Real.sqrt (varianza m)`.
  To keep the pipeline computable the source's comparisons
  `d > np.std(m) * 5` (line 71) and `d > umbral * 3` (line 81) are
  represented by the equivalent comparisons on squares,
  `25 * varianza m < d ^ 2` and `225 * varianza m < d ^ 2`; the equivalence
  (valid because every cell of the differential map is an absolute value,
  hence non-negative) is proved in `mul_sqrt_lt_iff_sq_mul_lt_sq` below and
  used to state the threshold claims in their original square-root form.
* `scipy.ndimage.gaussian_filter(-, sigma=15)` is an external numeric
  routine; the pipeline is parametrised by an arbitrary `smooth : Mat → Mat`
  (assumed shape-preserving where a claim needs it, which the Gaussian
  filter is), so every theorem proved for all such `smooth` holds in
  particular for the actual Gaussian filter.
* pandas: `pd.DataFrame(resultados)` with `resultados == []` produces a
  DataFrame with no columns, so the subsequent `df_total['Prometedor']`
  (line 93) raises `KeyError`; this is modelled by the
  `ErrKind.keyErrorPrometedor` branch.  `df.sort_values(by=-,
  ascending=False)` (`pandas.core.sorting.nargsort`) reverses the rows and
  the index array, runs an ascending argsort (stable, since numpy argsort
  falls back to insertion sort on the small tables involved) and reverses
  the resulting indexer, so tied keys keep their original extraction
  order; `listaPrometedores` models this as reverse, stable ascending
  insertion sort, reverse.
* `datetime.now().year` (line 89) is an ambient run parameter `year`.
* The external FITS loader is modelled by giving the orchestrator, for each
  path, the outcome of loading it: `Option Mat` with `none` meaning a
  load/decode failure of that file.
-/

namespace Picaser

/-- A decoded 2-D image (numpy array of floats): a list of rows. -/
abbrev Mat := List (List ℚ)

/-- Number of rows, `arr.shape[0]`. -/
def nrows (m : Mat) : ℕ := m.length

/-- Number of columns, `arr.shape[1]` (width of the first row; numpy arrays
are rectangular so all rows share it). -/
def ncols (m : Mat) : ℕ := (m.head?.getD []).length

/-- The numpy shape `(H, W)` of a 2-D array. -/
def matShape (m : Mat) : ℕ × ℕ := (nrows m, ncols m)

/-- Cell access `m[y, x]`, defaulting to `0` out of bounds (in-bounds
accesses are the only ones the pipeline performs on numpy arrays). -/
def at2 (m : Mat) (y x : ℕ) : ℚ := ((m[y]?.getD [])[x]?.getD 0)

/-- Combined size of one axis of a numpy broadcast: equal sizes stay, a
size of 1 stretches to the other operand's size. -/
def bcDim (a b : ℕ) : ℕ := if a = b then a else if a = 1 then b else a

/-- numpy broadcast compatibility of one axis: sizes equal, or one is 1. -/
def bcDimOk (a b : ℕ) : Bool := a == b || a == 1 || b == 1

/-- numpy broadcast compatibility of two 2-D arrays. -/
def bcCompat (a b : Mat) : Bool :=
  bcDimOk (nrows a) (nrows b) && bcDimOk (ncols a) (ncols b)

/-- Broadcast-aware cell access: an axis of size 1 always reads index 0. -/
def bAt (m : Mat) (y x : ℕ) : ℚ :=
  at2 m (if nrows m = 1 then 0 else y) (if ncols m = 1 then 0 else x)

/-- numpy element-wise subtraction `a - b` of 2-D arrays with broadcasting;
`none` models the `ValueError` numpy raises on incompatible shapes. -/
def bsub (a b : Mat) : Option Mat :=
  if bcCompat a b then
    some ((List.range (bcDim (nrows a) (nrows b))).map fun y =>
      (List.range (bcDim (ncols a) (ncols b))).map fun x => bAt a y x - bAt b y x)
  else none

/-- `np.abs`, element-wise. -/
def absMat (m : Mat) : Mat := m.map fun row => row.map fun q => |q|

/-- All cells of the array, flattened in row-major order. -/
def celdas (m : Mat) : List ℚ := m.flatten

/-- `np.mean` over all cells (division by zero yields `0` in `ℚ`; the empty
case leads to the same observable pairing outcome as numpy's NaNs: zero
extracted points). -/
def media (m : Mat) : ℚ := (celdas m).sum / ((celdas m).length : ℚ)

/-- Population variance over all cells: `np.std(m) ** 2` (numpy's default
`ddof = 0`). -/
def varianza (m : Mat) : ℚ :=
  ((celdas m).map fun q => (q - media m) ^ 2).sum / ((celdas m).length : ℚ)

/-- Round-half-to-even to an integer, as Python's `round` does. -/
def roundHalfEven (q : ℚ) : ℤ :=
  if q - ⌊q⌋ < 1 / 2 then ⌊q⌋
  else if 1 / 2 < q - ⌊q⌋ then ⌊q⌋ + 1
  else if Even ⌊q⌋ then ⌊q⌋ else ⌊q⌋ + 1

/-- Python's `round(x, 2)` (idealised to exact rationals). -/
def round2 (q : ℚ) : ℚ := (roundHalfEven (q * 100) : ℚ) / 100

/-- Why a pairing's `error` field is set.  The Python code stores the string
`f"Error durante la comparación con {path}: {e}"`; the model records the
exception `e` it wraps. -/
inductive ErrKind where
  /-- `fits.open(comparison_path)[0].data.astype(float)` raised (line 59). -/
  | loadFailure : ErrKind
  /-- numpy raised `ValueError` on broadcast-incompatible shapes in one of
  the subtractions (lines 63, 64, 68). -/
  | broadcastMismatch : ErrKind
  /-- `df_total['Prometedor']` raised `KeyError` because `resultados` was
  empty, so `pd.DataFrame([])` had no columns (line 93). -/
  | keyErrorPrometedor : ErrKind
deriving DecidableEq

/-- One row of the `resultados` table built in the classification loop
(lines 83-90). -/
structure Candidate where
  /-- The `'ID'` column, `f"Picaser-Diff-{i}-{j+1}"`. -/
  id : String
  /-- The `'Coord_X'` column. -/
  coordX : ℕ
  /-- The `'Coord_Y'` column. -/
  coordY : ℕ
  /-- The `'Magnitud_Cambio'` column, `round(intensidad, 2)`. -/
  magnitud : ℚ
  /-- The `'Prometedor'` column; the source stores the strings `"SÍ"` and
  `"No"`, rendered here as `true` and `false`. -/
  prometedor : Bool
  /-- The `'Firma'` column, `f"PLG-{datetime.now().year}"`. -/
  firma : String
deriving DecidableEq

/-- One element of `all_comparisons_results` (the dictionary built at
lines 49-56 and mutated at lines 95-97 or 101). -/
structure CompResult where
  reference_file : String
  comparison_file : String
  diferencial : Option Mat
  lista_total : List Candidate
  lista_prometedores : List Candidate
  error : Option ErrKind
deriving DecidableEq

/-- The coordinates `np.where(diferencial > umbral)` yields (line 71): all
`(y, x)` with `diferencial[y, x] > umbral` in row-major (C) order.  The
comparison `d > umbral` with `umbral = np.std(diferencial) * 5` is encoded
as `25 * v < d ^ 2` where `v` is the variance of `dif` (see the file
header). -/
def puntosDe (dif : Mat) (v : ℚ) : List (ℕ × ℕ) :=
  (List.range dif.length).flatMap fun y =>
    (List.range (ncols dif)).filterMap fun x =>
      if 25 * v < at2 dif y x ^ 2 then some (y, x) else none

/-- One iteration of the classification loop (lines 76-90) for the `j`-th
extracted point `(y, x)` of pairing `i`.  `intensidad = dif[y, x]`; the
promising test `intensidad > umbral * 3` is encoded as
`225 * v < intensidad ^ 2` (see the file header). -/
def mkCandidate (dif : Mat) (v : ℚ) (year i j y x : ℕ) : Candidate :=
  { id := "Picaser-Diff-" ++ Nat.repr i ++ "-" ++ Nat.repr (j + 1)
    coordX := x
    coordY := y
    magnitud := round2 (at2 dif y x)
    prometedor := decide (225 * v < at2 dif y x ^ 2)
    firma := "PLG-" ++ Nat.repr year }

/-- The full `resultados` table of one pairing (lines 73-90). -/
def resultados (dif : Mat) (year i : ℕ) : List Candidate :=
  (puntosDe dif (varianza dif)).enum.map fun jp =>
    mkCandidate dif (varianza dif) year i jp.1 jp.2.1 jp.2.2

/-- Ascending order on the `'Magnitud_Cambio'` column, the sort key of
`sort_values` (line 93). -/
def magAsc (a b : Candidate) : Prop := a.magnitud ≤ b.magnitud

instance : DecidableRel magAsc :=
  fun a b => inferInstanceAs (Decidable (a.magnitud ≤ b.magnitud))

instance : IsTotal Candidate magAsc := ⟨fun a b => le_total a.magnitud b.magnitud⟩

instance : IsTrans Candidate magAsc := ⟨fun _ _ _ h h' => le_trans h h'⟩

/-- `df_total[df_total['Prometedor'] == "SÍ"].sort_values(by='Magnitud_Cambio',
ascending=False)` (line 93): filter the promising rows, then sort by
descending magnitude.  pandas `nargsort` reverses the rows and the index
array, runs a stable ascending argsort and reverses the resulting indexer
(see the file header), which this models as reverse, stable ascending
insertion sort, reverse: tied magnitudes keep original extraction order. -/
def listaPrometedores (res : List Candidate) : List Candidate :=
  (List.insertionSort magAsc ((res.filter fun c => c.prometedor).reverse)).reverse

/-- A pairing result whose processing failed: the dictionary of lines 49-56
with only `error` updated (line 101). -/
def failRes (refPath path : String) (e : ErrKind) : CompResult :=
  { reference_file := refPath, comparison_file := path, diferencial := none
    lista_total := [], lista_prometedores := [], error := some e }

/-- A fully populated pairing result (lines 95-97). -/
def successRes (refPath path : String) (dif : Mat) (year i : ℕ) : CompResult :=
  { reference_file := refPath, comparison_file := path, diferencial := some dif
    lista_total := resultados dif year i
    lista_prometedores := listaPrometedores (resultados dif year i)
    error := none }

/-- Lines 63-68: suppress the background of both frames and take the
absolute difference; `none` if numpy raised on incompatible shapes. -/
def pipelineDif (smooth : Mat → Mat) (refData cmpData : Mat) : Option Mat :=
  match bsub refData (smooth refData), bsub cmpData (smooth cmpData) with
  | some nowClean, some pastClean => (bsub nowClean pastClean).map absMat
  | _, _ => none

/-- The body of the `for i in range(1, len(fits_file_paths))` loop
(lines 46-104): process one reference-vs-comparison pairing.  `load` is
what the external loader produced for `path` (line 59). -/
def processPairing (smooth : Mat → Mat) (year : ℕ) (refPath : String) (refData : Mat)
    (i : ℕ) (path : String) (load : Option Mat) : CompResult :=
  match load with
  | none => failRes refPath path ErrKind.loadFailure
  | some cmpData =>
    match pipelineDif smooth refData cmpData with
    | none => failRes refPath path ErrKind.broadcastMismatch
    | some dif =>
      if (resultados dif year i).isEmpty then failRes refPath path ErrKind.keyErrorPrometedor
      else successRes refPath path dif year i

/-- The orchestrator `analizador_multitemporal_picaser` (lines 14-106).
`files` pairs each input path with the outcome of loading it. -/
def analizador (smooth : Mat → Mat) (year : ℕ)
    (files : List (String × Option Mat)) : List CompResult :=
  if files.length < 2 then []
  else
    match files with
    | [] => []
    | (refPath, refLoad) :: rest =>
      match refLoad with
      | none => []
      | some refData =>
        rest.enum.map fun kp =>
          processPairing smooth year refPath refData (kp.1 + 1) kp.2.1 kp.2.2

/-- The constant-zero smoother: a shape-preserving stand-in for the external
filter, used to instantiate witnesses and counterexamples (with it,
`now_clean` equals the raw frame exactly). -/
def smoothZero (m : Mat) : Mat := m.map fun row => row.map fun _ => 0

/-- An all-zero matrix of the given dimensions, in the normal form `bsub`
produces. -/
def zerosMat (h w : ℕ) : Mat :=
  (List.range h).map fun _ => (List.range w).map fun _ => 0

/-- Row-major (C) order on coordinates `(y, x)`: earlier row, or same row
and earlier column. -/
def rowMajorLt (p q : ℕ × ℕ) : Prop := p.1 < q.1 ∨ (p.1 = q.1 ∧ p.2 < q.2)

/-- Value of a decimal digit string, used to invert `Nat.repr`. -/
def digitsVal (l : List Char) : ℕ := l.foldl (fun a c => 10 * a + (c.toNat - 48)) 0

/-- Modelled from the spec: `promising_candidates` as §3/§4.4 describe it —
the promising subset sorted by descending magnitude with a stable sort
(ties keep original extraction order).  Stated for comparison with the
implementation's `listaPrometedores`. -/
def sortDescStableSpec (l : List Candidate) : List Candidate :=
  List.insertionSort (fun a b => magAsc b a) l

instance : DecidableRel fun a b => magAsc b a :=
  fun a b => inferInstanceAs (Decidable (b.magnitud ≤ a.magnitud))

/-! Concrete fixtures used by witnesses and counterexamples. -/

/-- Path of the reference file in the fixtures. -/
def fileA : String := "a.FITS"

/-- Path of the comparison file in the fixtures. -/
def fileB : String := "b.FITS"

/-- Path of the 1 × 1 reference file in the broadcast fixture. -/
def fileR : String := "r.FITS"

/-- Path of the comparison file in the broadcast fixture. -/
def fileC : String := "c.FITS"

/-- Path of a file that fails to load. -/
def fileBad : String := "bad.FITS"

/-- Path of the third file of run `runC9a`. -/
def fileX : String := "x.FITS"

/-- Path of the third file of run `runC9b`. -/
def fileY : String := "y.FITS"

/-- A 1 × 24 all-zero reference frame. -/
def ref24 : Mat := [List.replicate 24 0]

/-- A 1 × 24 comparison frame, all zero except a 1 in the last cell.  With
24 cells, `1 > 5 * std` holds (576 > 575) but `1 > 15 * std` does not, so
the single extracted candidate is not promising. -/
def cmp24 : Mat := [List.replicate 23 0 ++ [1]]

/-- Two loadable files: the reference `ref24` and the comparison `cmp24`. -/
def files24 : List (String × Option Mat) :=
  [(fileA, some ref24), (fileB, some cmp24)]

/-- The differential map of the `files24` pairing under `smoothZero`. -/
def dif24 : Mat := cmp24

/-- The single candidate of the `files24` pairing under `smoothZero`,
`year = 2025`. -/
def cand24 : Candidate :=
  { id := "Picaser-Diff-1-1", coordX := 23, coordY := 0, magnitud := 1
    prometedor := false, firma := "PLG-2025" }

/-- A 2 × 2 all-zero frame (compared with itself: zero candidates). -/
def M0 : Mat := [[0, 0], [0, 0]]

/-- A 1 × 1 zero frame, broadcast-compatible with `cmp24` although their
shapes differ. -/
def refC3 : Mat := [[0]]

/-- Input whose two frames have different but broadcast-compatible shapes:
(1, 1) against (1, 24). -/
def filesC3 : List (String × Option Mat) :=
  [(fileR, some refC3), (fileC, some cmp24)]

/-- Row-mean smoother: replaces every cell by its row's mean.  On the
1 × 2 fixtures below it acts like the program's wide Gaussian (`sigma = 15`
far exceeds the row length): `gaussian_filter` on a 1 × 2 frame `[a, b]`
with reflect boundaries returns `[α·a + (1-α)·b, α·b + (1-α)·a]` for a
single weight `α`, and the row mean is the `α = 1/2` instance of that
form. -/
def smoothRowMean (m : Mat) : Mat :=
  m.map fun row => row.map fun _ => row.sum / (row.length : ℚ)

/-- A 1 × 2 all-zero reference frame. -/
def refK : Mat := [[0, 0]]

/-- A 1 × 2 comparison frame `[0, 0.008]`.  Suppressing it with any
symmetric two-point smoother of weight `α` leaves `[-β, β]` with
`β = (1-α) × 0.008`, so the differential against the zero reference is the
constant map `[β, β]`: standard deviation exactly `0`, threshold and
promising cutoff exactly `0`, both cells extracted (`β > 0`) and marked
promising (`β > 0 = umbral * 3`), while `round(β, 2) = 0` whenever
`β < 0.005` — which holds both for the real Gaussian (`α` close to `1/2`)
and for `smoothRowMean` (`β = 1/250`). -/
def cmpK : Mat := [[0, 1 / 125]]

/-- Input whose pairing yields a constant nonzero differential: every cell
promising with rounded magnitude `0.00` and promising cutoff `0`. -/
def filesK : List (String × Option Mat) :=
  [(fileA, some refK), (fileB, some cmpK)]

/-- The differential map of the `filesK` pairing under `smoothRowMean`. -/
def difK : Mat := [[1 / 250, 1 / 250]]

/-- First candidate of the `filesK` pairing under `smoothRowMean`,
`year = 2025`: promising, rounded magnitude `0`. -/
def candK1 : Candidate :=
  { id := "Picaser-Diff-1-1", coordX := 0, coordY := 0, magnitud := 0
    prometedor := true, firma := "PLG-2025" }

/-- Second candidate of the `filesK` pairing under `smoothRowMean`,
`year = 2025`: promising, rounded magnitude `0`, tied with `candK1`. -/
def candK2 : Candidate :=
  { id := "Picaser-Diff-1-2", coordX := 1, coordY := 0, magnitud := 0
    prometedor := true, firma := "PLG-2025" }

/-- The fully populated result of the `files24` pairing. -/
def res24 : CompResult := successRes fileA fileB dif24 2025 1

/-- Input whose second file fails to load. -/
def filesFail : List (String × Option Mat) :=
  [(fileA, some ref24), (fileBad, none)]

/-- A run sharing reference and first comparison frame with `runC9b` but
differing in the later comparison frame. -/
def runC9a : List (String × Option Mat) := files24 ++ [(fileX, some M0)]

/-- A run sharing reference and first comparison frame with `runC9a` but
differing in the later comparison frame. -/
def runC9b : List (String × Option Mat) := files24 ++ [(fileY, none)]

end Picaser

namespace Picaser

/-! Basic facts about the embedded numerics and shapes. -/

theorem smoothZero_shape (m : Mat) : matShape (smoothZero m) = matShape m := by
  cases m with
  | nil => rfl
  | cons row rest => simp [matShape, nrows, ncols, smoothZero]

theorem varianza_nonneg (m : Mat) : 0 ≤ varianza m := by
  unfold varianza
  apply div_nonneg
  · apply List.sum_nonneg
    intro q hq
    obtain ⟨p, _, rfl⟩ := List.mem_map.1 hq
    positivity
  · exact_mod_cast Nat.zero_le _

theorem at2_absMat_nonneg (m : Mat) (y x : ℕ) : 0 ≤ at2 (absMat m) y x := by
  unfold at2 absMat
  rw [List.getElem?_map]
  cases h : m[y]? with
  | none => simp
  | some row =>
    simp only [Option.map_some', Option.getD_some]
    rw [List.getElem?_map]
    cases h2 : row[x]? with
    | none => simp
    | some q => simp [abs_nonneg]

theorem mul_sqrt_lt_iff_sq_mul_lt_sq {k v d : ℝ} (hk : 0 ≤ k) (hv : 0 ≤ v) (hd : 0 ≤ d) :
    k * Real.sqrt v < d ↔ k ^ 2 * v < d ^ 2 := by
  have h1 : Real.sqrt (k ^ 2 * v) = k * Real.sqrt v := by
    rw [Real.sqrt_mul (by positivity), Real.sqrt_sq hk]
  have h2 : Real.sqrt (d ^ 2) = d := Real.sqrt_sq hd
  have h3 := Real.sqrt_lt_sqrt_iff (x := k ^ 2 * v) (y := d ^ 2) (by positivity)
  rw [h1, h2] at h3
  exact h3

theorem bcDimOk_self (n : ℕ) : bcDimOk n n = true := by simp [bcDimOk]

theorem bcDim_self (n : ℕ) : bcDim n n = n := by simp [bcDim]

theorem bcCompat_of_shape_eq {a b : Mat} (h : matShape a = matShape b) :
    bcCompat a b = true := by
  have h1 : nrows a = nrows b := congrArg Prod.fst h
  have h2 : ncols a = ncols b := congrArg Prod.snd h
  simp [bcCompat, h1, h2, bcDimOk_self]

theorem bcCompat_congr {a a' b b' : Mat} (ha : matShape a = matShape a')
    (hb : matShape b = matShape b') : bcCompat a b = bcCompat a' b' := by
  have ha1 : nrows a = nrows a' := congrArg Prod.fst ha
  have ha2 : ncols a = ncols a' := congrArg Prod.snd ha
  have hb1 : nrows b = nrows b' := congrArg Prod.fst hb
  have hb2 : ncols b = ncols b' := congrArg Prod.snd hb
  simp [bcCompat, ha1, ha2, hb1, hb2]

theorem bsub_eq_none_iff {a b : Mat} : bsub a b = none ↔ bcCompat a b = false := by
  by_cases h : bcCompat a b <;> simp [bsub, h]

theorem bsub_eq_some_of_compat {a b : Mat} (h : bcCompat a b = true) :
    bsub a b = some ((List.range (bcDim (nrows a) (nrows b))).map fun y =>
      (List.range (bcDim (ncols a) (ncols b))).map fun x => bAt a y x - bAt b y x) := by
  simp [bsub, h]

theorem bsub_isSome_of_compat {a b : Mat} (h : bcCompat a b = true) :
    ∃ m, bsub a b = some m := ⟨_, bsub_eq_some_of_compat h⟩

theorem nrows_of_bsub {a b m : Mat} (h : bsub a b = some m) :
    nrows m = bcDim (nrows a) (nrows b) := by
  by_cases hc : bcCompat a b
  · rw [bsub_eq_some_of_compat hc] at h
    obtain rfl := Option.some.inj h
    simp [nrows]
  · rw [bsub_eq_none_iff.2 (by simpa using hc)] at h
    cases h

theorem ncols_of_bsub {a b m : Mat} (h : bsub a b = some m)
    (hpos : 0 < bcDim (nrows a) (nrows b)) :
    ncols m = bcDim (ncols a) (ncols b) := by
  by_cases hc : bcCompat a b
  · rw [bsub_eq_some_of_compat hc] at h
    obtain rfl := Option.some.inj h
    unfold ncols
    rw [List.head?_eq_getElem?, List.getElem?_map, List.getElem?_range hpos]
    simp
  · rw [bsub_eq_none_iff.2 (by simpa using hc)] at h
    cases h

theorem matShape_of_bsub_shape_eq {a b m : Mat} (hab : matShape a = matShape b)
    (h : bsub a b = some m) (hpos : 0 < nrows a) : matShape m = matShape a := by
  have h1 : nrows a = nrows b := congrArg Prod.fst hab
  have h2 : ncols a = ncols b := congrArg Prod.snd hab
  have hr : nrows m = nrows a := by rw [nrows_of_bsub h, ← h1, bcDim_self]
  have hcdim : bcDim (nrows a) (nrows b) = nrows a := by rw [← h1, bcDim_self]
  have hc : ncols m = ncols a := by
    rw [ncols_of_bsub h (by rwa [hcdim]), ← h2, bcDim_self]
  simp [matShape, hr, hc]

theorem bsub_self (a : Mat) : bsub a a = some (zerosMat (nrows a) (ncols a)) := by
  rw [bsub_eq_some_of_compat (bcCompat_of_shape_eq rfl)]
  simp [bcDim_self, zerosMat, sub_self]

theorem at2_zerosMat (h w y x : ℕ) : at2 (zerosMat h w) y x = 0 := by
  unfold at2 zerosMat
  rw [List.getElem?_map]
  cases hr : (List.range h)[y]? with
  | none => simp
  | some y' =>
    simp only [Option.map_some', Option.getD_some]
    rw [List.getElem?_map]
    cases (List.range w)[x]? <;> simp

theorem absMat_zerosMat (h w : ℕ) : absMat (zerosMat h w) = zerosMat h w := by
  simp [absMat, zerosMat, List.map_map, Function.comp]

theorem celdas_zerosMat {h w : ℕ} {q : ℚ} (hq : q ∈ celdas (zerosMat h w)) : q = 0 := by
  unfold celdas zerosMat at hq
  rw [List.mem_flatten] at hq
  obtain ⟨row, hrow, hq⟩ := hq
  obtain ⟨_, _, rfl⟩ := List.mem_map.1 hrow
  obtain ⟨_, _, rfl⟩ := List.mem_map.1 hq
  rfl

theorem media_zerosMat (h w : ℕ) : media (zerosMat h w) = 0 := by
  unfold media
  rw [List.sum_eq_zero fun q hq => celdas_zerosMat hq]
  simp

theorem varianza_zerosMat (h w : ℕ) : varianza (zerosMat h w) = 0 := by
  unfold varianza
  rw [List.sum_eq_zero]
  · simp
  · intro q hq
    obtain ⟨p, hp, rfl⟩ := List.mem_map.1 hq
    rw [celdas_zerosMat hp, media_zerosMat]
    ring

end Picaser

namespace Picaser

/-! Extraction and classification: membership, order, projections. -/

theorem mem_puntosDe {dif : Mat} {v : ℚ} {y x : ℕ} :
    (y, x) ∈ puntosDe dif v ↔
      y < dif.length ∧ x < ncols dif ∧ 25 * v < at2 dif y x ^ 2 := by
  unfold puntosDe
  rw [List.mem_flatMap]
  constructor
  · rintro ⟨y', hy', hmem⟩
    rw [List.mem_filterMap] at hmem
    obtain ⟨x', hx', hsome⟩ := hmem
    by_cases hc : 25 * v < at2 dif y' x' ^ 2
    · rw [if_pos hc] at hsome
      obtain ⟨rfl, rfl⟩ := Prod.mk.injEq y' x' y x ▸ Option.some.inj hsome
      exact ⟨List.mem_range.1 hy', List.mem_range.1 hx', hc⟩
    · rw [if_neg hc] at hsome
      cases hsome
  · rintro ⟨hy, hx, hc⟩
    exact ⟨y, List.mem_range.2 hy,
      List.mem_filterMap.2 ⟨x, List.mem_range.2 hx, by rw [if_pos hc]⟩⟩

theorem pairwise_puntosDe (dif : Mat) (v : ℚ) : (puntosDe dif v).Pairwise rowMajorLt := by
  unfold puntosDe
  rw [List.flatMap_def, List.pairwise_flatten]
  constructor
  · intro l hl
    obtain ⟨y, _, rfl⟩ := List.mem_map.1 hl
    rw [List.pairwise_filterMap]
    refine (List.pairwise_lt_range _).imp ?_
    intro x x' hxx p hp q hq
    by_cases c1 : 25 * v < at2 dif y x ^ 2
    · rw [if_pos c1] at hp
      by_cases c2 : 25 * v < at2 dif y x' ^ 2
      · rw [if_pos c2] at hq
        rw [Option.mem_some_iff] at hp hq
        obtain rfl := hp.symm
        obtain rfl := hq.symm
        exact Or.inr ⟨rfl, hxx⟩
      · rw [if_neg c2] at hq
        cases hq
    · rw [if_neg c1] at hp
      cases hp
  · rw [List.pairwise_map]
    refine (List.pairwise_lt_range _).imp ?_
    intro y y' hyy p hp q hq
    rw [List.mem_filterMap] at hp hq
    obtain ⟨x, _, hps⟩ := hp
    obtain ⟨x', _, hqs⟩ := hq
    by_cases c1 : 25 * v < at2 dif y x ^ 2
    · by_cases c2 : 25 * v < at2 dif y' x' ^ 2
      · rw [if_pos c1] at hps
        rw [if_pos c2] at hqs
        obtain rfl := Option.some.inj hps
        obtain rfl := Option.some.inj hqs
        exact Or.inl hyy
      · rw [if_neg c2] at hqs
        cases hqs
    · rw [if_neg c1] at hps
      cases hps

end Picaser

namespace Picaser

theorem map_coords_resultados (dif : Mat) (year i : ℕ) :
    (resultados dif year i).map (fun c => (c.coordY, c.coordX)) =
      puntosDe dif (varianza dif) := by
  unfold resultados
  rw [List.map_map]
  have h : ((fun c => (c.coordY, c.coordX)) ∘ fun jp : ℕ × ℕ × ℕ =>
      mkCandidate dif (varianza dif) year i jp.1 jp.2.1 jp.2.2) = Prod.snd := by
    funext jp
    simp [mkCandidate, Function.comp]
  rw [h, List.enum_map_snd]

theorem map_id_resultados (dif : Mat) (year i : ℕ) :
    (resultados dif year i).map (fun c => c.id) =
      (List.range (puntosDe dif (varianza dif)).length).map
        (fun j => "Picaser-Diff-" ++ Nat.repr i ++ "-" ++ Nat.repr (j + 1)) := by
  unfold resultados
  rw [List.map_map]
  have h : ((fun c : Candidate => c.id) ∘ fun jp : ℕ × ℕ × ℕ =>
      mkCandidate dif (varianza dif) year i jp.1 jp.2.1 jp.2.2) =
      (fun j => "Picaser-Diff-" ++ Nat.repr i ++ "-" ++ Nat.repr (j + 1)) ∘ Prod.fst := by
    funext jp
    simp [mkCandidate, Function.comp]
  rw [h, ← List.map_map, List.enum_map_fst]

theorem mem_resultados {dif : Mat} {year i : ℕ} {c : Candidate}
    (h : c ∈ resultados dif year i) :
    ∃ y x, (y, x) ∈ puntosDe dif (varianza dif) ∧ c.coordY = y ∧ c.coordX = x ∧
      c.magnitud = round2 (at2 dif y x) ∧
      c.prometedor = decide (225 * varianza dif < at2 dif y x ^ 2) := by
  unfold resultados at h
  obtain ⟨jp, hjp, rfl⟩ := List.mem_map.1 h
  refine ⟨jp.2.1, jp.2.2, ?_, rfl, rfl, rfl, rfl⟩
  have hsnd : jp.2 ∈ puntosDe dif (varianza dif) := by
    rw [← List.enum_map_snd (puntosDe dif (varianza dif))]
    exact List.mem_map_of_mem Prod.snd hjp
  simpa using hsnd

theorem getElem_resultados (dif : Mat) (year i j : ℕ)
    (hj : j < (resultados dif year i).length) :
    ∃ y x, (resultados dif year i).get ⟨j, hj⟩ =
      mkCandidate dif (varianza dif) year i j y x := by
  unfold resultados at hj ⊢
  rw [List.get_eq_getElem, List.getElem_map, List.getElem_enum]
  exact ⟨_, _, rfl⟩

/-! Case analysis of one pairing. -/

theorem processPairing_load_none (smooth : Mat → Mat) (year : ℕ) (refPath : String)
    (refData : Mat) (i : ℕ) (path : String) :
    processPairing smooth year refPath refData i path none =
      failRes refPath path ErrKind.loadFailure := rfl

theorem processPairing_cases (smooth : Mat → Mat) (year : ℕ) (refPath : String)
    (refData : Mat) (i : ℕ) (path : String) (load : Option Mat) :
    (∃ e, processPairing smooth year refPath refData i path load = failRes refPath path e) ∨
    (∃ cmpData dif, load = some cmpData ∧ pipelineDif smooth refData cmpData = some dif ∧
      (resultados dif year i).isEmpty = false ∧
      processPairing smooth year refPath refData i path load =
        successRes refPath path dif year i) := by
  cases load with
  | none => exact Or.inl ⟨ErrKind.loadFailure, rfl⟩
  | some cmpData =>
    simp only [processPairing]
    cases hp : pipelineDif smooth refData cmpData with
    | none => exact Or.inl ⟨ErrKind.broadcastMismatch, rfl⟩
    | some dif =>
      by_cases he : (resultados dif year i).isEmpty
      · exact Or.inl ⟨ErrKind.keyErrorPrometedor, by simp [he]⟩
      · exact Or.inr ⟨cmpData, dif, rfl, hp, by simpa using he, by simp [he]⟩

theorem processPairing_comparison_file (smooth : Mat → Mat) (year : ℕ) (refPath : String)
    (refData : Mat) (i : ℕ) (path : String) (load : Option Mat) :
    (processPairing smooth year refPath refData i path load).comparison_file = path := by
  rcases processPairing_cases smooth year refPath refData i path load with ⟨e, h⟩ | ⟨_, _, _, _, _, h⟩ <;>
    rw [h] <;> rfl

theorem processPairing_reference_file (smooth : Mat → Mat) (year : ℕ) (refPath : String)
    (refData : Mat) (i : ℕ) (path : String) (load : Option Mat) :
    (processPairing smooth year refPath refData i path load).reference_file = refPath := by
  rcases processPairing_cases smooth year refPath refData i path load with ⟨e, h⟩ | ⟨_, _, _, _, _, h⟩ <;>
    rw [h] <;> rfl

theorem processPairing_success_inversion {smooth : Mat → Mat} {year : ℕ} {refPath : String}
    {refData : Mat} {i : ℕ} {path : String} {load : Option Mat} {dif : Mat}
    (h : (processPairing smooth year refPath refData i path load).diferencial = some dif) :
    processPairing smooth year refPath refData i path load =
      successRes refPath path dif year i ∧
    (∃ cmpData, load = some cmpData ∧ pipelineDif smooth refData cmpData = some dif) := by
  rcases processPairing_cases smooth year refPath refData i path load with ⟨e, hh⟩ |
    ⟨cmpData, dif', hload, hpipe, hne, hh⟩
  · rw [hh] at h
    cases h
  · rw [hh] at h
    obtain rfl : dif' = dif := by simpa [successRes] using h
    exact ⟨hh, cmpData, hload, hpipe⟩

theorem pipelineDif_absMat {smooth : Mat → Mat} {refData cmpData dif : Mat}
    (h : pipelineDif smooth refData cmpData = some dif) : ∃ raw, dif = absMat raw := by
  unfold pipelineDif at h
  cases h1 : bsub refData (smooth refData) with
  | none => rw [h1] at h; cases h
  | some nowClean =>
    cases h2 : bsub cmpData (smooth cmpData) with
    | none => rw [h1, h2] at h; cases h
    | some pastClean =>
      rw [h1, h2] at h
      obtain ⟨raw, _, rfl⟩ := Option.map_eq_some'.1 h
      exact ⟨raw, rfl⟩

theorem at2_pipelineDif_nonneg {smooth : Mat → Mat} {refData cmpData dif : Mat}
    (h : pipelineDif smooth refData cmpData = some dif) (y x : ℕ) :
    0 ≤ at2 dif y x := by
  obtain ⟨raw, rfl⟩ := pipelineDif_absMat h
  exact at2_absMat_nonneg raw y x

/-! Unfolding the orchestrator. -/

theorem analizador_short (smooth : Mat → Mat) (year : ℕ)
    (files : List (String × Option Mat)) (h : files.length < 2) :
    analizador smooth year files = [] := by
  simp [analizador, h]

theorem analizador_head_none (smooth : Mat → Mat) (year : ℕ) (p : String)
    (rest : List (String × Option Mat)) :
    analizador smooth year ((p, none) :: rest) = [] := by
  unfold analizador
  split
  · rfl
  · rfl

theorem analizador_cons_some (smooth : Mat → Mat) (year : ℕ) (refPath : String)
    (refData : Mat) (rest : List (String × Option Mat)) (h : rest ≠ []) :
    analizador smooth year ((refPath, some refData) :: rest) =
      rest.enum.map fun kp =>
        processPairing smooth year refPath refData (kp.1 + 1) kp.2.1 kp.2.2 := by
  unfold analizador
  rw [if_neg]
  simp only [List.length_cons, Nat.not_lt]
  have : 0 < rest.length := List.length_pos.2 h
  omega

theorem mem_analizador {smooth : Mat → Mat} {year : ℕ}
    {files : List (String × Option Mat)} {r : CompResult}
    (h : r ∈ analizador smooth year files) :
    ∃ refPath refData k path load,
      r = processPairing smooth year refPath refData (k + 1) path load := by
  match files with
  | [] => rw [analizador_short smooth year [] (by simp)] at h; cases h
  | (p, none) :: rest => rw [analizador_head_none] at h; cases h
  | (p, some refData) :: rest =>
    rcases eq_or_ne rest [] with rfl | hne
    · rw [analizador_short smooth year _ (by simp)] at h
      cases h
    · rw [analizador_cons_some smooth year p refData rest hne] at h
      obtain ⟨kp, _, rfl⟩ := List.mem_map.1 h
      exact ⟨p, refData, kp.1, kp.2.1, kp.2.2, rfl⟩

end Picaser

namespace Picaser

/-! Decimal rendering of naturals is injective (needed for ID uniqueness). -/

theorem toDigitsCore_append (fuel : ℕ) : ∀ (n : ℕ) (ds : List Char),
    Nat.toDigitsCore 10 fuel n ds = Nat.toDigitsCore 10 fuel n [] ++ ds := by
  induction fuel with
  | zero => intro n ds; simp [Nat.toDigitsCore]
  | succ fuel ih =>
    intro n ds
    simp only [Nat.toDigitsCore]
    by_cases h : n / 10 = 0
    · simp [h]
    · rw [if_neg h, if_neg h, ih (n / 10) ((n % 10).digitChar :: ds),
        ih (n / 10) [(n % 10).digitChar]]
      simp

theorem digitsVal_append_one (l : List Char) (c : Char) :
    digitsVal (l ++ [c]) = 10 * digitsVal l + (c.toNat - 48) := by
  unfold digitsVal
  rw [List.foldl_append]
  rfl

theorem digitChar_val_eq (d : ℕ) (h : d < 10) : (Nat.digitChar d).toNat - 48 = d := by
  interval_cases d <;> rfl

theorem digitsVal_toDigitsCore (fuel : ℕ) : ∀ n : ℕ, n < fuel →
    digitsVal (Nat.toDigitsCore 10 fuel n []) = n := by
  induction fuel with
  | zero => intro n hn; omega
  | succ fuel ih =>
    intro n hn
    simp only [Nat.toDigitsCore]
    by_cases h : n / 10 = 0
    · rw [if_pos h]
      have hlt : n < 10 := by omega
      have : digitsVal [(n % 10).digitChar] = (n % 10).digitChar.toNat - 48 := by
        unfold digitsVal
        simp
      rw [this, digitChar_val_eq _ (Nat.mod_lt _ (by norm_num)), Nat.mod_eq_of_lt hlt]
    · rw [if_neg h]
      have hn0 : 0 < n := by
        rcases Nat.eq_zero_or_pos n with rfl | hp
        · simp at h
        · exact hp
      have hdiv : n / 10 < fuel := by
        have h1 : n / 10 < n := Nat.div_lt_self hn0 (by norm_num)
        omega
      rw [toDigitsCore_append, digitsVal_append_one, ih _ hdiv,
        digitChar_val_eq _ (Nat.mod_lt _ (by norm_num))]
      omega

theorem digitsVal_repr_data (n : ℕ) : digitsVal (Nat.repr n).data = n := by
  show digitsVal (Nat.toDigits 10 n).asString.data = n
  have : (Nat.toDigits 10 n).asString.data = Nat.toDigits 10 n := rfl
  rw [this]
  exact digitsVal_toDigitsCore (n + 1) n (Nat.lt_succ_self n)

theorem repr_injective {m n : ℕ} (h : Nat.repr m = Nat.repr n) : m = n := by
  have hd : (Nat.repr m).data = (Nat.repr n).data := by rw [h]
  have := digitsVal_repr_data m
  rw [hd, digitsVal_repr_data n] at this
  omega

theorem string_append_left_cancel {p a b : String} (h : p ++ a = p ++ b) : a = b := by
  have hd : (p ++ a).data = (p ++ b).data := by rw [h]
  rw [String.data_append, String.data_append] at hd
  exact congrArg String.mk (List.append_cancel_left hd)

/-! Stability of the promising-candidate sort: filtering one magnitude class
out of the ascending insertion sort returns the class in original order. -/

theorem filter_orderedInsert_magEq (q : ℚ) (a : Candidate) : ∀ l : List Candidate,
    (List.orderedInsert magAsc a l).filter (fun c => decide (c.magnitud = q)) =
      if a.magnitud = q then a :: l.filter (fun c => decide (c.magnitud = q))
      else l.filter (fun c => decide (c.magnitud = q)) := by
  intro l
  induction l with
  | nil =>
    by_cases hq : a.magnitud = q <;>
      simp [List.orderedInsert, List.filter_cons, hq]
  | cons b l ih =>
    by_cases hab : magAsc a b
    · rw [List.orderedInsert_of_le magAsc _ hab]
      by_cases hq : a.magnitud = q <;> simp [List.filter_cons, hq]
    · have hstep : List.orderedInsert magAsc a (b :: l) =
          b :: List.orderedInsert magAsc a l := by
        simp [List.orderedInsert, hab]
      rw [hstep]
      by_cases hbq : b.magnitud = q
      · have haq : ¬a.magnitud = q := fun haq => hab (le_of_eq (by rw [haq, hbq]))
        simp [List.filter_cons, hbq, haq, ih]
      · simp [List.filter_cons, hbq, ih]

theorem filter_insertionSort_magEq (q : ℚ) (l : List Candidate) :
    (List.insertionSort magAsc l).filter (fun c => decide (c.magnitud = q)) =
      l.filter (fun c => decide (c.magnitud = q)) := by
  induction l with
  | nil => rfl
  | cons a l ih =>
    simp only [List.insertionSort]
    rw [filter_orderedInsert_magEq, ih]
    by_cases hq : a.magnitud = q <;> simp [List.filter, hq]

end Picaser

namespace Picaser

attribute [local semireducible] Rat.add Rat.sub Rat.mul Rat.inv

set_option maxRecDepth 100000

theorem puntosDe_zerosMat (h w : ℕ) :
    puntosDe (zerosMat h w) (varianza (zerosMat h w)) = [] := by
  refine List.eq_nil_iff_forall_not_mem.2 ?_
  rintro ⟨y, x⟩ hp
  rw [mem_puntosDe, at2_zerosMat, varianza_zerosMat] at hp
  simp at hp

theorem resultados_zerosMat (h w year i : ℕ) : resultados (zerosMat h w) year i = [] := by
  unfold resultados
  rw [puntosDe_zerosMat]
  rfl

/-- Claim C1 — the claim is right and the code is wrong (code bug): a
pairing that loads successfully, has compatible shapes, and yields zero
candidates should produce a non-error result with a populated differential
and empty candidate lists, but the code does not.  Comparing any frame with
itself (under any shape-preserving smoother, hence also under the Gaussian
filter) gives an all-zero differential, `threshold = 0`, and zero extracted
points since `0 > 0` is false; then `pd.DataFrame([])` has no columns, so
`df_total['Prometedor']` raises `KeyError`, the `except` block records an
error, and `diferencial` is left `None`. -/
theorem claim_C1 (smooth : Mat → Mat) (hsm : ∀ m, matShape (smooth m) = matShape m)
    (year : ℕ) (a b : String) (M : Mat) :
    analizador smooth year [(a, some M), (b, some M)] =
      [failRes a b ErrKind.keyErrorPrometedor] := by
  have hne : [(b, some M)] ≠ ([] : List (String × Option Mat)) := by simp
  rw [show [(a, some M), (b, some M)] = (a, some M) :: [(b, some M)] from rfl,
    analizador_cons_some smooth year a M [(b, some M)] hne]
  have hcompat : bcCompat M (smooth M) = true := bcCompat_of_shape_eq (hsm M).symm
  obtain ⟨n, hn⟩ := bsub_isSome_of_compat hcompat
  have hpipe : pipelineDif smooth M M = some (zerosMat (nrows n) (ncols n)) := by
    unfold pipelineDif
    rw [hn]
    show Option.map absMat (bsub n n) = _
    rw [bsub_self n]
    simp [absMat_zerosMat]
  have hproc : processPairing smooth year a M 1 b (some M) =
      failRes a b ErrKind.keyErrorPrometedor := by
    simp only [processPairing]
    rw [hpipe]
    simp [resultados_zerosMat]
  simp [List.enum, List.enumFrom, hproc]

/-- Witness for C1 at a concrete input: a 2 × 2 zero frame compared with
itself under the zero smoother. -/
theorem claim_C1_witness :
    (∀ m, matShape (smoothZero m) = matShape m) ∧
    analizador smoothZero 2025 [(fileA, some M0), (fileB, some M0)] =
      [failRes fileA fileB ErrKind.keyErrorPrometedor] :=
  ⟨smoothZero_shape, claim_C1 smoothZero smoothZero_shape 2025 fileA fileB M0⟩

/-- Claim C2: the orchestrator returns exactly one result per comparison
frame, in input order, regardless of per-pairing failures; and it returns
the empty collection when fewer than two files are supplied or the
reference file fails to load. -/
theorem claim_C2 (smooth : Mat → Mat) (year : ℕ) (files : List (String × Option Mat)) :
    (files.length < 2 → analizador smooth year files = []) ∧
    (∀ p rest, files = (p, (none : Option Mat)) :: rest →
      analizador smooth year files = []) ∧
    (∀ refPath refData rest, files = (refPath, some refData) :: rest →
      2 ≤ files.length →
      (analizador smooth year files).length = files.length - 1 ∧
      ∀ k : ℕ, ((analizador smooth year files)[k]?).map (fun r : CompResult => r.comparison_file) =
        (rest[k]?).map Prod.fst) := by
  refine ⟨fun h => analizador_short smooth year files h, ?_, ?_⟩
  · rintro p rest rfl
    exact analizador_head_none smooth year p rest
  · rintro refPath refData rest rfl hlen
    have hne : rest ≠ [] := by
      intro h
      subst h
      simp at hlen
    rw [analizador_cons_some smooth year refPath refData rest hne]
    constructor
    · simp
    · intro k
      rw [List.getElem?_map, List.getElem?_enum]
      cases hk : rest[k]? with
      | none => simp
      | some pr => simp [processPairing_comparison_file]

/-- Witness for C2 at a concrete two-file input. -/
theorem claim_C2_witness :
    files24 = (fileA, some ref24) :: [(fileB, some cmp24)] ∧ 2 ≤ files24.length ∧
    (analizador smoothZero 2025 files24).length = files24.length - 1 ∧
    ((analizador smoothZero 2025 files24)[0]?).map (fun r : CompResult => r.comparison_file) =
      (([(fileB, some cmp24)] : List (String × Option Mat))[0]?).map Prod.fst := by
  have h := (claim_C2 smoothZero 2025 files24).2.2 fileA ref24
    [(fileB, some cmp24)] rfl (by decide)
  exact ⟨rfl, by decide, h.1, h.2 0⟩

/-- Claim C8: in every result the orchestrator ever returns, the `error`
field is absent exactly when the `diferencial` field is populated. -/
theorem claim_C8 (smooth : Mat → Mat) (year : ℕ) (files : List (String × Option Mat))
    (r : CompResult) (hr : r ∈ analizador smooth year files) :
    r.error = none ↔ r.diferencial.isSome = true := by
  obtain ⟨refPath, refData, k, path, load, rfl⟩ := mem_analizador hr
  rcases processPairing_cases smooth year refPath refData (k + 1) path load with
    ⟨e, h⟩ | ⟨_, _, _, _, _, h⟩ <;> rw [h]
  · simp [failRes]
  · simp [successRes]

/-- Witness for C8 at the successful `files24` pairing. -/
theorem claim_C8_witness :
    res24 ∈ analizador smoothZero 2025 files24 ∧
    (res24.error = none ↔ res24.diferencial.isSome = true) := by
  have hlist : analizador smoothZero 2025 files24 = [res24] := by decide
  have hmem : res24 ∈ analizador smoothZero 2025 files24 := by
    rw [hlist]
    exact List.mem_singleton_self res24
  exact ⟨hmem, claim_C8 smoothZero 2025 files24 res24 hmem⟩

/-- Claim C10: a failed pairing's result still carries both file
identifiers, an absent differential, and both candidate tables equal to
their pre-initialised empty values. -/
theorem claim_C10 (smooth : Mat → Mat) (year : ℕ) (refPath : String) (refData : Mat)
    (rest : List (String × Option Mat)) (k : ℕ) (r : CompResult)
    (hk : (analizador smooth year ((refPath, some refData) :: rest))[k]? = some r)
    (he : r.error.isSome = true) :
    r.reference_file = refPath ∧ (rest[k]?).map Prod.fst = some r.comparison_file ∧
    r.diferencial = none ∧ r.lista_total = [] ∧ r.lista_prometedores = [] := by
  have hne : rest ≠ [] := by
    intro hrest
    subst hrest
    rw [analizador_short] at hk
    · cases hk
    · simp
  rw [analizador_cons_some smooth year refPath refData rest hne] at hk
  rw [List.getElem?_map, List.getElem?_enum] at hk
  cases hp : rest[k]? with
  | none => rw [hp] at hk; cases hk
  | some pr =>
    rw [hp] at hk
    simp only [Option.map_some'] at hk
    obtain rfl := Option.some.inj hk
    rcases processPairing_cases smooth year refPath refData (k + 1) pr.1 pr.2 with
      ⟨e, h⟩ | ⟨_, _, _, _, _, h⟩
    · rw [h]
      exact ⟨rfl, rfl, rfl, rfl, rfl⟩
    · rw [h] at he
      simp [successRes] at he

/-- Witness for C10 at a concrete input whose second file fails to load. -/
theorem claim_C10_witness :
    (analizador smoothZero 2025 ((fileA, some ref24) :: [(fileBad, (none : Option Mat))]))[0]? =
      some (failRes fileA fileBad ErrKind.loadFailure) ∧
    (failRes fileA fileBad ErrKind.loadFailure).error.isSome = true ∧
    ((failRes fileA fileBad ErrKind.loadFailure).reference_file = fileA ∧
      (([(fileBad, (none : Option Mat))] :
        List (String × Option Mat))[0]?).map Prod.fst =
        some (failRes fileA fileBad ErrKind.loadFailure).comparison_file ∧
      (failRes fileA fileBad ErrKind.loadFailure).diferencial = none ∧
      (failRes fileA fileBad ErrKind.loadFailure).lista_total = [] ∧
      (failRes fileA fileBad ErrKind.loadFailure).lista_prometedores = []) := by
  have hk : (analizador smoothZero 2025
      ((fileA, some ref24) :: [(fileBad, (none : Option Mat))]))[0]? =
      some (failRes fileA fileBad ErrKind.loadFailure) := by decide
  exact ⟨hk, by decide,
    claim_C10 smoothZero 2025 fileA ref24 [(fileBad, none)] 0 _ hk (by decide)⟩

end Picaser

namespace Picaser

attribute [local semireducible] Rat.add Rat.sub Rat.mul Rat.inv

set_option maxRecDepth 100000

theorem processPairing_error_broadcast_iff (smooth : Mat → Mat) (year : ℕ)
    (refPath : String) (refData : Mat) (i : ℕ) (path : String) (cmpData : Mat) :
    (processPairing smooth year refPath refData i path (some cmpData)).error =
      some ErrKind.broadcastMismatch ↔ pipelineDif smooth refData cmpData = none := by
  simp only [processPairing]
  cases hp : pipelineDif smooth refData cmpData with
  | none => simp [failRes]
  | some dif =>
    by_cases he : (resultados dif year i).isEmpty <;> simp [he, failRes, successRes]

/-- Claim C3 — corrected.  The original claim (every pairing whose two
frames have different shapes fails with a shape-mismatch error) is false:
numpy silently broadcasts a dimension of size 1, so e.g. a (1, 1) reference
against a (1, 24) comparison subtracts without error (see
`claim_C3_counterexample`).  Amended: for frames with at least one row
each, the pairing records the shape-mismatch (broadcast) error exactly when
the two frames' shapes are not numpy-broadcast-compatible (each axis equal
or of size 1); the failure is isolated to that pairing (claim C2). -/
theorem claim_C3 (smooth : Mat → Mat) (hsm : ∀ m, matShape (smooth m) = matShape m)
    (year : ℕ) (refPath : String) (refData : Mat) (i : ℕ) (path : String) (cmpData : Mat)
    (h1 : 0 < nrows refData) (h2 : 0 < nrows cmpData) :
    (processPairing smooth year refPath refData i path (some cmpData)).error =
      some ErrKind.broadcastMismatch ↔ bcCompat refData cmpData = false := by
  obtain ⟨n, hn⟩ := bsub_isSome_of_compat (bcCompat_of_shape_eq (hsm refData).symm)
  have hshape_n : matShape n = matShape refData :=
    matShape_of_bsub_shape_eq (hsm refData).symm hn h1
  obtain ⟨p, hp⟩ := bsub_isSome_of_compat (bcCompat_of_shape_eq (hsm cmpData).symm)
  have hshape_p : matShape p = matShape cmpData :=
    matShape_of_bsub_shape_eq (hsm cmpData).symm hp h2
  have hcc : bcCompat n p = bcCompat refData cmpData := bcCompat_congr hshape_n hshape_p
  have hpipe : pipelineDif smooth refData cmpData = (bsub n p).map absMat := by
    unfold pipelineDif
    rw [hn, hp]
  rw [processPairing_error_broadcast_iff, hpipe, Option.map_eq_none', bsub_eq_none_iff, hcc]

/-- Counterexample for C3 as stated: the frames of `filesC3` have different
shapes, (1, 1) and (1, 24), yet the pairing completes without any error. -/
theorem claim_C3_counterexample :
    matShape refC3 ≠ matShape cmp24 ∧
    ((analizador smoothZero 2025 filesC3)[0]?).map (fun r : CompResult => r.error) =
      some none := ⟨by decide, by decide⟩

/-- Witness for C3 at a concrete incompatible pair of shapes, (2, 1) and
(3, 1). -/
theorem claim_C3_witness :
    0 < nrows [[(0 : ℚ)], [0]] ∧ 0 < nrows [[(0 : ℚ)], [0], [0]] ∧
    ((processPairing smoothZero 2025 fileR [[(0 : ℚ)], [0]] 1 fileC
        (some [[(0 : ℚ)], [0], [0]])).error = some ErrKind.broadcastMismatch ↔
      bcCompat [[(0 : ℚ)], [0]] [[(0 : ℚ)], [0], [0]] = false) :=
  ⟨by decide, by decide,
    claim_C3 smoothZero smoothZero_shape 2025 fileR [[(0 : ℚ)], [0]] 1 fileC
      [[(0 : ℚ)], [0], [0]] (by decide) (by decide)⟩

/-- Claim C9 — corrected.  The result of the `i`-th pairing is a function
of the reference entry, the `i`-th comparison entry, the pairing index, the
smoothing filter — and additionally the wall-clock year that
`datetime.now().year` stamps into every candidate's `Firma` field, which
the original claim omits (see `claim_C9_counterexample`).  Amended: two
runs in the same year that agree on the reference entry and on comparison
entry `i` produce identical `i`-th results, irrespective of every other
comparison frame supplied. -/
theorem claim_C9 (smooth : Mat → Mat) (year : ℕ) (f1 f2 : List (String × Option Mat))
    (i : ℕ) (hi : 1 ≤ i) (hl1 : i < f1.length) (hl2 : i < f2.length)
    (hhead : f1.head? = f2.head?) (hei : f1[i]? = f2[i]?) :
    (analizador smooth year f1)[i - 1]? = (analizador smooth year f2)[i - 1]? := by
  obtain ⟨j, rfl⟩ : ∃ j, i = j + 1 := ⟨i - 1, (Nat.succ_pred_eq_of_pos hi).symm⟩
  simp only [Nat.add_sub_cancel]
  cases f1 with
  | nil => simp at hl1
  | cons a rest1 =>
    cases f2 with
    | nil => simp at hl2
    | cons b rest2 =>
      obtain rfl : a = b := by simpa using hhead
      obtain ⟨pa, la⟩ := a
      cases la with
      | none => rw [analizador_head_none, analizador_head_none]
      | some rd =>
        have hr1 : rest1 ≠ [] := by
          intro h
          subst h
          simp at hl1
        have hr2 : rest2 ≠ [] := by
          intro h
          subst h
          simp at hl2
        rw [analizador_cons_some smooth year pa rd rest1 hr1,
          analizador_cons_some smooth year pa rd rest2 hr2,
          List.getElem?_map, List.getElem?_map, List.getElem?_enum, List.getElem?_enum]
        have he : rest1[j]? = rest2[j]? := by simpa using hei
        rw [he]

/-- Counterexample for C9 as stated: two runs on identical input frames,
one in 2025 and one in 2026, give different first results (the `Firma`
column embeds the wall-clock year). -/
theorem claim_C9_counterexample :
    (analizador smoothZero 2025 files24)[0]? ≠ (analizador smoothZero 2026 files24)[0]? := by
  decide

/-- Witness for C9 (amended) at two concrete runs that agree on the
reference and the first comparison frame but differ in the later one. -/
theorem claim_C9_witness :
    1 < runC9a.length ∧ 1 < runC9b.length ∧ runC9a.head? = runC9b.head? ∧
    runC9a[1]? = runC9b[1]? ∧
    (analizador smoothZero 2025 runC9a)[0]? = (analizador smoothZero 2025 runC9b)[0]? :=
  ⟨by decide, by decide, by decide, by decide,
    claim_C9 smoothZero 2025 runC9a runC9b 1 (le_refl 1) (by decide) (by decide)
      (by decide) (by decide)⟩

end Picaser

namespace Picaser

attribute [local semireducible] Rat.add Rat.sub Rat.mul Rat.inv

set_option maxRecDepth 100000

set_option maxHeartbeats 8000000

theorem threshold_iff {v d : ℚ} (hv : 0 ≤ v) (hd : 0 ≤ d) :
    25 * v < d ^ 2 ↔ 5 * Real.sqrt (v : ℝ) < (d : ℝ) := by
  have hcast : 25 * v < d ^ 2 ↔ (25 : ℝ) * (v : ℝ) < (d : ℝ) ^ 2 := by
    constructor
    · intro h
      exact_mod_cast h
    · intro h
      exact_mod_cast h
  rw [hcast, mul_sqrt_lt_iff_sq_mul_lt_sq (by norm_num : (0 : ℝ) ≤ 5)
    (by exact_mod_cast hv) (by exact_mod_cast hd)]
  norm_num

theorem promising_iff {v d : ℚ} (hv : 0 ≤ v) (hd : 0 ≤ d) :
    225 * v < d ^ 2 ↔ 3 * (5 * Real.sqrt (v : ℝ)) < (d : ℝ) := by
  have hcast : 225 * v < d ^ 2 ↔ (225 : ℝ) * (v : ℝ) < (d : ℝ) ^ 2 := by
    constructor
    · intro h
      exact_mod_cast h
    · intro h
      exact_mod_cast h
  have h15 : 3 * (5 * Real.sqrt (v : ℝ)) = 15 * Real.sqrt (v : ℝ) := by ring
  rw [hcast, h15, mul_sqrt_lt_iff_sq_mul_lt_sq (by norm_num : (0 : ℝ) ≤ 15)
    (by exact_mod_cast hv) (by exact_mod_cast hd)]
  norm_num

/-- Claim C4: for every successfully processed pairing, the detection
threshold is `5 ×` the population standard deviation of the differential
map over all cells, and the extracted candidate coordinates are exactly the
in-bounds `(y, x)` whose map value strictly exceeds it, enumerated in
row-major order. -/
theorem claim_C4 (smooth : Mat → Mat) (year : ℕ) (refPath : String) (refData : Mat)
    (i : ℕ) (path : String) (load : Option Mat) (dif : Mat)
    (hdif : (processPairing smooth year refPath refData i path load).diferencial = some dif) :
    (∀ y x : ℕ,
      (y, x) ∈ (processPairing smooth year refPath refData i path load).lista_total.map
          (fun c => (c.coordY, c.coordX)) ↔
        y < nrows dif ∧ x < ncols dif ∧
          5 * Real.sqrt (varianza dif : ℝ) < (at2 dif y x : ℝ)) ∧
    ((processPairing smooth year refPath refData i path load).lista_total.map
        (fun c => (c.coordY, c.coordX))).Pairwise rowMajorLt := by
  obtain ⟨hsucc, cmpData, hload, hpipe⟩ := processPairing_success_inversion hdif
  rw [hsucc]
  have hlt : (successRes refPath path dif year i).lista_total = resultados dif year i := rfl
  rw [hlt, map_coords_resultados]
  constructor
  · intro y x
    have hv := varianza_nonneg dif
    have hd := at2_pipelineDif_nonneg hpipe y x
    rw [mem_puntosDe]
    constructor
    · rintro ⟨hy, hx, hc⟩
      exact ⟨hy, hx, (threshold_iff hv hd).1 hc⟩
    · rintro ⟨hy, hx, hc⟩
      exact ⟨hy, hx, (threshold_iff hv hd).2 hc⟩
  · exact pairwise_puntosDe dif (varianza dif)

/-- Witness for C4 at the `files24` pairing: the single candidate sits at
`(y, x) = (0, 23)`. -/
theorem claim_C4_witness :
    (processPairing smoothZero 2025 fileA ref24 1 fileB (some cmp24)).diferencial =
      some dif24 ∧
    ((0, 23) ∈ (processPairing smoothZero 2025 fileA ref24 1 fileB
        (some cmp24)).lista_total.map (fun c => (c.coordY, c.coordX)) ↔
      0 < nrows dif24 ∧ 23 < ncols dif24 ∧
        5 * Real.sqrt (varianza dif24 : ℝ) < (at2 dif24 0 23 : ℝ)) ∧
    ((processPairing smoothZero 2025 fileA ref24 1 fileB
        (some cmp24)).lista_total.map (fun c => (c.coordY, c.coordX))).Pairwise rowMajorLt := by
  have hdif : (processPairing smoothZero 2025 fileA ref24 1 fileB (some cmp24)).diferencial =
      some dif24 := by decide
  have h := claim_C4 smoothZero 2025 fileA ref24 1 fileB (some cmp24) dif24 hdif
  exact ⟨hdif, h.1 0 23, h.2⟩

/-- Claim C5 — corrected.  The recorded magnitude is indeed the map value
rounded to 2 decimals, but the promising flag is computed from the RAW map
value, not from the rounded magnitude: the code tests
`intensidad > umbral * 3` (line 81) before rounding (line 87).  The two
differ when the raw value exceeds the cutoff but its rounding does not
(`claim_C5_counterexample`).  Amended: `promising = true` iff the raw
differential value at the candidate's coordinates strictly exceeds
`promising_cutoff = threshold × 3`. -/
theorem claim_C5 (smooth : Mat → Mat) (year : ℕ) (refPath : String) (refData : Mat)
    (i : ℕ) (path : String) (load : Option Mat) (dif : Mat)
    (hdif : (processPairing smooth year refPath refData i path load).diferencial = some dif)
    (c : Candidate)
    (hc : c ∈ (processPairing smooth year refPath refData i path load).lista_total) :
    c.magnitud = round2 (at2 dif c.coordY c.coordX) ∧
    (c.prometedor = true ↔
      3 * (5 * Real.sqrt (varianza dif : ℝ)) < (at2 dif c.coordY c.coordX : ℝ)) := by
  obtain ⟨hsucc, cmpData, hload, hpipe⟩ := processPairing_success_inversion hdif
  rw [hsucc] at hc
  obtain ⟨y, x, hmem, hy, hx, hmag, hprom⟩ := mem_resultados hc
  refine ⟨by rw [hy, hx]; exact hmag, ?_⟩
  rw [hy, hx, hprom, decide_eq_true_eq]
  exact promising_iff (varianza_nonneg dif) (at2_pipelineDif_nonneg hpipe y x)

/-- Witness for C5 (amended) at the `files24` pairing's single candidate. -/
theorem claim_C5_witness :
    (processPairing smoothZero 2025 fileA ref24 1 fileB (some cmp24)).diferencial =
      some dif24 ∧
    cand24 ∈ (processPairing smoothZero 2025 fileA ref24 1 fileB (some cmp24)).lista_total ∧
    (cand24.magnitud = round2 (at2 dif24 cand24.coordY cand24.coordX) ∧
      (cand24.prometedor = true ↔
        3 * (5 * Real.sqrt (varianza dif24 : ℝ)) <
          (at2 dif24 cand24.coordY cand24.coordX : ℝ))) := by
  have hdif : (processPairing smoothZero 2025 fileA ref24 1 fileB (some cmp24)).diferencial =
      some dif24 := by decide
  have hc : cand24 ∈ (processPairing smoothZero 2025 fileA ref24 1 fileB
      (some cmp24)).lista_total := by
    have : (processPairing smoothZero 2025 fileA ref24 1 fileB (some cmp24)).lista_total =
        [cand24] := by decide
    rw [this]
    exact List.mem_singleton_self cand24
  exact ⟨hdif, hc, claim_C5 smoothZero 2025 fileA ref24 1 fileB (some cmp24) dif24 hdif
    cand24 hc⟩

/-- Counterexample for C5 as stated, at the `filesK` pairing: both
candidates are marked promising — their raw differential value `1/250`
strictly exceeds `promising_cutoff = 15 × std = 0` — yet their rounded
magnitude is `0.00`, which does NOT strictly exceed the cutoff, so
"promising iff (rounded) magnitude exceeds the cutoff" fails.  The real
program behaves the same on these frames: the Gaussian-suppressed
differential of a 1 × 2 pair is exactly constant (see `cmpK`), `np.std` is
exactly `0.0`, and both cells are extracted with `Prometedor = "SÍ"` and
`Magnitud_Cambio = 0.0`. -/
theorem claim_C5_counterexample :
    ((analizador smoothRowMean 2025 filesK)[0]?).map
        (fun r : CompResult => (r.diferencial, r.lista_total)) =
      some (some difK, [candK1, candK2]) ∧
    varianza difK = 0 ∧
    candK1.prometedor = true ∧
    ¬ 3 * (5 * Real.sqrt (varianza difK : ℝ)) < (candK1.magnitud : ℝ) := by
  refine ⟨by decide, by decide, by decide, ?_⟩
  have hvar : varianza difK = 0 := by decide
  have hmag : (candK1.magnitud : ℝ) = 0 := by norm_num [candK1]
  rw [hvar, hmag]
  push_cast
  rw [Real.sqrt_zero]
  norm_num

end Picaser

namespace Picaser

attribute [local semireducible] Rat.add Rat.sub Rat.mul Rat.inv

set_option maxRecDepth 100000

set_option maxHeartbeats 8000000

/-- Claim C6 — corrected.  `promising_candidates` is the promising
subsequence of `all_candidates` reordered by descending rounded magnitude
with ties kept in original extraction order, exactly as the claim's sort
clause states (pandas `sort_values(ascending=False)` reverses the rows,
runs a stable ascending argsort and reverses the indexer, preserving tie
order).  The final conjunct fails, though: membership in the promising
list is governed by the RAW map value exceeding `promising_cutoff`
(line 81), so an element's rounded magnitude need not exceed the cutoff
(`claim_C6_counterexample`: a constant differential has cutoff `0` and
every candidate promising with rounded magnitude `0.00`).  Amended: the
promising list is a permutation of the promising subsequence, sorted
non-increasingly by rounded magnitude, each magnitude class in original
extraction order, and every element's RAW differential value strictly
exceeds the cutoff. -/
theorem claim_C6 (smooth : Mat → Mat) (year : ℕ) (refPath : String) (refData : Mat)
    (i : ℕ) (path : String) (load : Option Mat) (dif : Mat)
    (hdif : (processPairing smooth year refPath refData i path load).diferencial = some dif) :
    (processPairing smooth year refPath refData i path load).lista_prometedores.Perm
      ((processPairing smooth year refPath refData i path load).lista_total.filter
        fun c => c.prometedor) ∧
    (processPairing smooth year refPath refData i path load).lista_prometedores.Pairwise
      (fun a b => b.magnitud ≤ a.magnitud) ∧
    (∀ q : ℚ,
      (processPairing smooth year refPath refData i path load).lista_prometedores.filter
          (fun c => decide (c.magnitud = q)) =
        (processPairing smooth year refPath refData i path load).lista_total.filter
          (fun c => c.prometedor && decide (c.magnitud = q))) ∧
    (∀ c ∈ (processPairing smooth year refPath refData i path load).lista_prometedores,
      3 * (5 * Real.sqrt (varianza dif : ℝ)) < (at2 dif c.coordY c.coordX : ℝ)) := by
  obtain ⟨hsucc, cmpData, hload, hpipe⟩ := processPairing_success_inversion hdif
  rw [hsucc]
  have hpr : (successRes refPath path dif year i).lista_prometedores =
      (List.insertionSort magAsc (((resultados dif year i).filter
        fun c => c.prometedor).reverse)).reverse := rfl
  have hto : (successRes refPath path dif year i).lista_total = resultados dif year i := rfl
  rw [hpr, hto]
  refine ⟨?_, ?_, ?_, ?_⟩
  · exact (List.reverse_perm _).trans
      ((List.perm_insertionSort _ _).trans (List.reverse_perm _))
  · exact List.pairwise_reverse.2 (List.sorted_insertionSort magAsc _)
  · intro q
    rw [List.filter_reverse, filter_insertionSort_magEq, List.filter_reverse,
      List.reverse_reverse, List.filter_filter]
    apply List.filter_congr
    intro c _
    rw [Bool.and_comm]
  · intro c hc
    rw [List.mem_reverse, List.mem_insertionSort, List.mem_reverse,
      List.mem_filter] at hc
    obtain ⟨hmemL, hplus⟩ := hc
    obtain ⟨y, x, hmem, hy, hx, hmag, hprom⟩ := mem_resultados hmemL
    rw [hprom, decide_eq_true_eq] at hplus
    rw [hy, hx]
    exact (promising_iff (varianza_nonneg dif) (at2_pipelineDif_nonneg hpipe y x)).1 hplus

/-- Witness for C6 (amended) at the `files24` pairing (whose promising list
is empty), with the magnitude-class equation instantiated at `q = 1`. -/
theorem claim_C6_witness :
    (processPairing smoothZero 2025 fileA ref24 1 fileB (some cmp24)).diferencial =
      some dif24 ∧
    (processPairing smoothZero 2025 fileA ref24 1 fileB (some cmp24)).lista_prometedores.Perm
      ((processPairing smoothZero 2025 fileA ref24 1 fileB (some cmp24)).lista_total.filter
        fun c => c.prometedor) ∧
    (processPairing smoothZero 2025 fileA ref24 1 fileB (some cmp24)).lista_prometedores.Pairwise
      (fun a b => b.magnitud ≤ a.magnitud) ∧
    (processPairing smoothZero 2025 fileA ref24 1 fileB (some cmp24)).lista_prometedores.filter
        (fun c => decide (c.magnitud = 1)) =
      (processPairing smoothZero 2025 fileA ref24 1 fileB (some cmp24)).lista_total.filter
        (fun c => c.prometedor && decide (c.magnitud = 1)) := by
  have hdif : (processPairing smoothZero 2025 fileA ref24 1 fileB (some cmp24)).diferencial =
      some dif24 := by decide
  have h := claim_C6 smoothZero 2025 fileA ref24 1 fileB (some cmp24) dif24 hdif
  exact ⟨hdif, h.1, h.2.1, h.2.2.1 1⟩

/-- Counterexample for C6 as stated, at the `filesK` pairing: the
promising list equals the spec's stable descending sort of the promising
subsequence (the ordering half of the claim holds here), but both its
elements have rounded magnitude `0.00`, which does not strictly exceed the
promising cutoff `15 × std = 0` — the magnitude conjunct of the claim is
false.  The real program behaves the same on these frames: the
Gaussian-suppressed differential of a 1 × 2 pair is exactly constant (see
`cmpK`), so `np.std` is exactly `0.0` and both cells are promising with
`Magnitud_Cambio = 0.0`. -/
theorem claim_C6_counterexample :
    ((analizador smoothRowMean 2025 filesK)[0]?).map
        (fun r : CompResult => (r.lista_total, r.lista_prometedores)) =
      some ([candK1, candK2], [candK1, candK2]) ∧
    sortDescStableSpec ([candK1, candK2].filter fun c => c.prometedor) =
      [candK1, candK2] ∧
    candK1 ∈ ([candK1, candK2] : List Candidate) ∧
    ¬ 3 * (5 * Real.sqrt (varianza difK : ℝ)) < (candK1.magnitud : ℝ) := by
  refine ⟨by decide, by decide, List.mem_cons_self _ _, ?_⟩
  have hvar : varianza difK = 0 := by decide
  have hmag : (candK1.magnitud : ℝ) = 0 := by norm_num [candK1]
  rw [hvar, hmag]
  push_cast
  rw [Real.sqrt_zero]
  norm_num

/-- Claim C7 — corrected.  The generated id of the `j`-th extracted point
of pairing `i` is `"Picaser-Diff-<i>-<j+1>"`, not `"Diff-<i>-<j+1>"` as the
claim (and spec §4.4) states: the f-string at line 84 prepends
`"Picaser-"` (`claim_C7_counterexample`).  Uniqueness within the comparison
and reproducibility for identical input hold as claimed. -/
theorem claim_C7 (smooth : Mat → Mat) (year : ℕ) (refPath : String) (refData : Mat)
    (i : ℕ) (path : String) (load : Option Mat) :
    (∀ j (hj : j <
        (processPairing smooth year refPath refData i path load).lista_total.length),
      ((processPairing smooth year refPath refData i path load).lista_total.get
        ⟨j, hj⟩).id = "Picaser-Diff-" ++ Nat.repr i ++ "-" ++ Nat.repr (j + 1)) ∧
    ((processPairing smooth year refPath refData i path load).lista_total.map
      (fun c => c.id)).Nodup := by
  rcases processPairing_cases smooth year refPath refData i path load with
    ⟨e, h⟩ | ⟨cd, dif, _, _, _, h⟩ <;> rw [h]
  · constructor
    · intro j hj
      simp [failRes] at hj
    · simp [failRes]
  · constructor
    · intro j hj
      obtain ⟨y, x, hget⟩ := getElem_resultados dif year i j hj
      show ((resultados dif year i).get ⟨j, hj⟩).id = _
      rw [hget]
      rfl
    · show ((resultados dif year i).map fun c => c.id).Nodup
      rw [map_id_resultados]
      refine List.Nodup.map ?_ (List.nodup_range _)
      intro j1 j2 hYY
      have h1 := repr_injective (string_append_left_cancel hYY)
      omega

/-- Witness for C7 (amended) at the `files24` pairing: one candidate, with
id `"Picaser-Diff-1-1"`, and a duplicate-free id column. -/
theorem claim_C7_witness :
    ((processPairing smoothZero 2025 fileA ref24 1 fileB (some cmp24)).lista_total.map
      (fun c => c.id)).Nodup ∧
    ((processPairing smoothZero 2025 fileA ref24 1 fileB (some cmp24)).lista_total.get
      ⟨0, by decide⟩).id = "Picaser-Diff-" ++ Nat.repr 1 ++ "-" ++ Nat.repr (0 + 1) := by
  have h := claim_C7 smoothZero 2025 fileA ref24 1 fileB (some cmp24)
  exact ⟨h.2, h.1 0 (by decide)⟩

/-- Counterexample for C7 as stated: the `files24` pairing's only candidate
has id `"Picaser-Diff-1-1"`, which differs from the `"Diff-1-1"` the claim
prescribes. -/
theorem claim_C7_counterexample :
    ((analizador smoothZero 2025 files24)[0]?).map
        (fun r : CompResult => r.lista_total.map fun c => c.id) =
      some ["Picaser-Diff-1-1"] ∧
    ("Picaser-Diff-1-1" : String) ≠ "Diff-1-1" := ⟨by decide, by decide⟩

end Picaser
